import Mathlib

/-!
Verification development for the rag-customer-support repository.

The frontend logic (Chat.jsx, TicketDetail views, Sidebar, ProtectedRoute,
service wrappers, query-client configuration) is embedded as executable Lean
definitions translated directly from the JavaScript source. The backend core
(EscalationController, TicketStateMachine, ConversationStore) is not part of
the source tree; where a claim depends on it, the missing operation is
modelled from the specification text and marked as such in its doc comment.
-/

/-- Ticket status values, as used across the backend schema and the frontend
status selector (open, in_progress, resolved, closed). The first constructor
is spelled with a trailing underscore because plain open is a Lean keyword. -/
inductive TicketStatus where
  | open_
  | in_progress
  | resolved
  | closed
deriving DecidableEq, Repr

/-- Modelled from the spec: the TicketStateMachine transition graph (the
TicketStateMachine itself is not under src/). Legal edges are
open to in_progress, in_progress to resolved, resolved to closed,
open to closed and in_progress to closed; no edge returns to an earlier
state and no edge leaves closed. -/
def allowedEdge : TicketStatus → TicketStatus → Bool
  | TicketStatus.open_, TicketStatus.in_progress => true
  | TicketStatus.in_progress, TicketStatus.resolved => true
  | TicketStatus.resolved, TicketStatus.closed => true
  | TicketStatus.open_, TicketStatus.closed => true
  | TicketStatus.in_progress, TicketStatus.closed => true
  | _, _ => false

/-- All four ticket statuses, in the order the UI lists them. -/
def allTicketStatuses : List TicketStatus :=
  [TicketStatus.open_, TicketStatus.in_progress, TicketStatus.resolved,
   TicketStatus.closed]

/-- The set of legal successor statuses of a status, induced by the
spec-modelled transition graph. -/
def legalSuccessors (s : TicketStatus) : List TicketStatus :=
  allTicketStatuses.filter (fun t => allowedEdge s t)

/-- From TicketInfoBar / TicketHeader in the agent ticket detail view
(src/unnamed/part_009): the status Select renders the same four SelectItem
entries (Open, In Progress, Resolved, Closed) for every ticket, independent
of the current status passed as the Select value. -/
def selectableStatuses (_ : TicketStatus) : List TicketStatus :=
  [TicketStatus.open_, TicketStatus.in_progress, TicketStatus.resolved,
   TicketStatus.closed]

/-- JSON-side spelling of a ticket status, as sent by the frontend. -/
def statusString : TicketStatus → String
  | TicketStatus.open_ => "open"
  | TicketStatus.in_progress => "in_progress"
  | TicketStatus.resolved => "resolved"
  | TicketStatus.closed => "closed"

/-- From statusMutation in the agent ticket detail view: selecting a status
value issues updateTicket(ticketId, with a body carrying that status), for
whatever status the Select reported — there is no client-side edge check. -/
def statusMutationBody (s : TicketStatus) : List (String × String) :=
  [("status", statusString s)]

/- ── C2: escalation system, modelled from the spec (backend not under src/) ── -/

/-- A ticket as far as the at-most-one-active invariant is concerned:
its conversation and its status. -/
structure EscTicket where
  conversationId : Nat
  status : TicketStatus
deriving DecidableEq, Repr

/-- The escalation-relevant persistent state: the list of all tickets. -/
structure EscState where
  tickets : List EscTicket
deriving DecidableEq, Repr

/-- A ticket counts as active for a conversation when it belongs to the
conversation and its status is not closed. -/
def isActiveFor (conv : Nat) (t : EscTicket) : Bool :=
  t.conversationId == conv && !(t.status == TicketStatus.closed)

/-- Number of active (not closed) tickets of a conversation. -/
def activeTicketCount (st : EscState) (conv : Nat) : Nat :=
  st.tickets.countP (isActiveFor conv)

/-- Whether some active ticket exists for the conversation. -/
def hasActiveTicket (st : EscState) (conv : Nat) : Bool :=
  st.tickets.any (isActiveFor conv)

/-- Modelled from the spec: EscalationController ticket creation
(escalateNow and the auto threshold path are guarded identically; the
EscalationController is not under src/). It is a conditional insert keyed by
conversation id with no-active-ticket as the precondition: if an active
ticket already exists the state is unchanged and the existing ticket is
returned to the caller, otherwise a fresh ticket with status open is
inserted. -/
def escalateNow (st : EscState) (conv : Nat) : EscState :=
  if hasActiveTicket st conv then st
  else EscState.mk ({ conversationId := conv, status := TicketStatus.open_ } :: st.tickets)

/-- Update the status of the ticket at position i, but only along a legal
edge of the transition graph; otherwise the list is unchanged. -/
def setTicketStatus : List EscTicket → Nat → TicketStatus → List EscTicket
  | [], _, _ => []
  | t :: ts, 0, ns =>
      if allowedEdge t.status ns then
        { conversationId := t.conversationId, status := ns } :: ts
      else t :: ts
  | t :: ts, Nat.succ i, ns => t :: setTicketStatus ts i ns

/-- Modelled from the spec: TicketStateMachine.transition restricted to the
state relevant for the invariant — it mutates one ticket status and rejects
(leaves the state unchanged) any edge not in the allowed graph. -/
def transitionTicket (st : EscState) (i : Nat) (ns : TicketStatus) : EscState :=
  EscState.mk (setTicketStatus st.tickets i ns)

/-- One atomic mutation of the escalation state: an escalateNow or
auto-escalation call on some conversation, or a status transition on some
ticket. Arbitrary interleavings of concurrent calls are exactly the finite
sequences of these atomic steps. -/
inductive EscStep : EscState → EscState → Prop where
  | escalate (st : EscState) (conv : Nat) : EscStep st (escalateNow st conv)
  | transit (st : EscState) (i : Nat) (ns : TicketStatus) :
      EscStep st (transitionTicket st i ns)

/-- The initial state: no tickets. -/
def escInit : EscState := EscState.mk []

/-- A state is reachable when a finite sequence of atomic steps produces it
from the initial state. -/
def EscReachable (st : EscState) : Prop :=
  Relation.ReflTransGen EscStep escInit st

/- ── C3: confidence thresholds and the customer chat presentation ── -/

/-- Modelled from the spec: the EscalationController threshold decision (the
controller is not under src/). A score of at least 0.7 yields none, at least
0.4 yields offer, anything lower yields auto. -/
def escalationActionOf (score : ℚ) : String :=
  if 7/10 ≤ score then "none"
  else if 4/10 ≤ score then "offer"
  else "auto"

/-- The three visual levels of the ConfidenceBadge in Chat.jsx: green
ShieldCheck, yellow Shield, red ShieldAlert. -/
inductive BadgeLevel where
  | high
  | medium
  | low
deriving DecidableEq, Repr

/-- From ConfidenceBadge in Chat.jsx: the icon and colour class are chosen by
score at least 0.7, else score at least 0.4, else the low branch. -/
def confidenceBadgeLevel (score : ℚ) : BadgeLevel :=
  if 7/10 ≤ score then BadgeLevel.high
  else if 4/10 ≤ score then BadgeLevel.medium
  else BadgeLevel.low

/-- The confidence payload attached to an AI chat message, as read by
Chat.jsx (message.confidence with confidence_score and escalation_action). -/
structure Confidence where
  confidence_score : ℚ
  escalation_action : String
deriving DecidableEq

/-- A chat message as Chat.jsx reads it: sender role string and the optional
confidence payload. -/
structure CMessage where
  senderRole : String
  confidence : Option Confidence
deriving DecidableEq

/-- From Chat.jsx: the latest AI message of the list (the reversed list
searched for the first sender_role equal to ai). -/
def lastAiMessage (messages : List CMessage) : Option CMessage :=
  messages.reverse.find? (fun m => m.senderRole == "ai")

/-- From Chat.jsx showEscalateButton: the escalation affordance is shown when
a conversation is active, the latest AI message carries escalation_action
offer, no agent message is present, and no escalate call has succeeded. -/
def showEscalateButton (activeConvId : Option Nat) (messages : List CMessage)
    (escalateSucceeded : Bool) : Bool :=
  activeConvId.isSome &&
  (match lastAiMessage messages with
   | some m =>
       match m.confidence with
       | some c => c.escalation_action == "offer"
       | none => false
   | none => false) &&
  !(messages.any (fun m => m.senderRole == "agent")) &&
  !escalateSucceeded

/-- An AI message whose confidence carries the action the spec-modelled
controller decides for the given score. -/
def aiMessageFor (score : ℚ) : CMessage :=
  { senderRole := "ai",
    confidence := some { confidence_score := score,
                         escalation_action := escalationActionOf score } }

/- ── C4: respond rejection and the closed-ticket banner ── -/

/-- What the ticket detail view renders at the bottom: either the read-only
banner naming the terminal status, or the response input form whose submit
handler is the only caller of the respond mutation. -/
inductive BottomBar where
  | closedBanner (status : TicketStatus)
  | inputForm
deriving DecidableEq, Repr

/-- From TicketView in src/unnamed/part_009: isClosed is true when the
ticket status is closed or resolved. -/
def isClosedView (s : TicketStatus) : Bool :=
  s == TicketStatus.closed || s == TicketStatus.resolved

/-- From TicketView: when isClosed holds the banner replaces the input bar,
otherwise the form with the respond submit handler is rendered. -/
def ticketBottomBar (s : TicketStatus) : BottomBar :=
  if isClosedView s then BottomBar.closedBanner s else BottomBar.inputForm

/-- The respond call can only be invoked from the rendered input form. -/
def respondFormRendered (s : TicketStatus) : Bool :=
  match ticketBottomBar s with
  | BottomBar.inputForm => true
  | BottomBar.closedBanner _ => false

/-- Ticket fields the respond operation touches. -/
structure RespTicket where
  status : TicketStatus
  agentId : Option Nat
deriving DecidableEq, Repr

/-- An agent reply message appended to the conversation. -/
structure AgentMessage where
  content : String
  senderRole : String
deriving DecidableEq, Repr

/-- Modelled from the spec: TicketStateMachine.respond (not under src/).
Rejected if the ticket status is resolved or closed; otherwise appends an
agent message, claims the ticket for the agent when unclaimed, and moves an
open ticket to in_progress as a side effect of the first response. -/
def respondTicket (t : RespTicket) (content : String) (agentId : Nat) :
    Except String (RespTicket × AgentMessage) :=
  if t.status = TicketStatus.resolved ∨ t.status = TicketStatus.closed then
    Except.error "ticket is resolved or closed"
  else
    Except.ok
      ({ status := if t.status = TicketStatus.open_ then TicketStatus.in_progress
                   else t.status,
         agentId := match t.agentId with
                    | some a => some a
                    | none => some agentId },
       { content := content, senderRole := "agent" })

/-- Whether the respond operation accepted the request. -/
def respondAccepted (t : RespTicket) (content : String) (agentId : Nat) : Bool :=
  match respondTicket t content agentId with
  | Except.ok _ => true
  | Except.error _ => false

/- ── C5 and C6: optimistic send path of Chat.jsx ── -/

/-- The provisional message object handleSend stores in the optimisticMsg
state: a fixed placeholder id, the customer role, the trimmed content and a
timestamp. These are all of its fields. -/
structure OptimisticMsg where
  id : String
  senderRole : String
  content : String
  createdAt : String
deriving DecidableEq, Repr

/-- From handleSend in Chat.jsx: the provisional entry built before the send
request is issued. -/
def mkOptimisticMsg (content now : String) : OptimisticMsg :=
  { id := "optimistic", senderRole := "customer", content := content,
    createdAt := now }

/-- From sendMessage in chatApi.js: the POST body sent to the message
endpoint contains only the content field. -/
def sendMessageBody (content : String) : List (String × String) :=
  [("content", content)]

/-- A toast notification as the sonner calls produce it. -/
structure Toast where
  kind : String
  text : String
deriving DecidableEq, Repr

/-- The pieces of Chat.jsx component state the send-failure path touches. -/
structure ChatSendState where
  optimisticMsg : Option OptimisticMsg
  toasts : List Toast
deriving DecidableEq, Repr

/-- From sendMutation onError in Chat.jsx: the provisional entry is cleared
and an error toast is surfaced. -/
def onSendError (st : ChatSendState) : ChatSendState :=
  { optimisticMsg := none,
    toasts := st.toasts ++ [{ kind := "error", text := "Failed to send message" }] }

/-- The query client default options object from src/unnamed/part_006: it
configures retry 1 and refetchOnWindowFocus false for queries only; no
mutation retry is configured anywhere. -/
structure QueryClientDefaults where
  queriesRetry : Nat
  refetchOnWindowFocus : Bool
  mutationsRetry : Option Nat
deriving DecidableEq, Repr

/-- The concrete configuration passed to the QueryClient constructor. -/
def queryClientDefaults : QueryClientDefaults :=
  { queriesRetry := 1, refetchOnWindowFocus := false, mutationsRetry := none }

/-- The options of the send mutation in Chat.jsx: it declares an onError
handler and no retry option. -/
structure MutationCfg where
  hasOnErrorHandler : Bool
  retryConfigured : Option Nat
deriving DecidableEq, Repr

/-- The concrete useMutation options of the send mutation. -/
def sendMutationCfg : MutationCfg :=
  { hasOnErrorHandler := true, retryConfigured := none }

/- ── C7: the two getTickets wrappers and the sidebar badge call ── -/

/-- A JavaScript value as it appears in request parameter objects. -/
inductive JSVal where
  | undef
  | num (n : Nat)
  | str (s : String)
  | obj (fields : List (String × JSVal))
deriving Repr

/-- Whether a JavaScript value is undefined (the case in which a default
parameter value applies). -/
def JSVal.isUndef : JSVal → Bool
  | JSVal.undef => true
  | _ => false

/-- From getTickets in src/frontend/src/services/ticketApi.js: the wrapper
takes positional page and limit arguments (defaulted to 1 and 20 when the
caller passes nothing) and sends exactly the keys page and limit; it has no
status or priority parameter. -/
def getTicketsServicesParams (page limit : JSVal) : List (String × JSVal) :=
  [("page", if page.isUndef then JSVal.num 1 else page),
   ("limit", if limit.isUndef then JSVal.num 20 else limit)]

/-- From Sidebar.jsx: the badge query calls getTickets with a single object
argument carrying status open and limit 1. -/
def sidebarBadgeArg : JSVal :=
  JSVal.obj [("status", JSVal.str "open"), ("limit", JSVal.num 1)]

/-- The request parameters the sidebar badge call produces through the
wrapper in src/frontend/src/services/ticketApi.js: the filter object lands
in the positional page parameter and limit falls back to its default. -/
def sidebarBadgeRequestParams : List (String × JSVal) :=
  getTicketsServicesParams sidebarBadgeArg JSVal.undef

/-- The options object accepted by the getTickets variant found in
src/unnamed/part_000 (object destructuring with defaults page 1, limit 20
and optional status and priority). An absent property is the none case. -/
structure GetTicketsOpts where
  page : Option Nat
  limit : Option Nat
  status : Option String
  priority : Option String
deriving DecidableEq, Repr

/-- From the getTickets variant in src/unnamed/part_000: params always holds
page and limit (destructuring defaults 1 and 20), and the status and
priority keys are added by truthiness checks, so a supplied non-empty string
is included and an absent or empty one is not. -/
def getTicketsUnnamedParams (o : GetTicketsOpts) : List (String × JSVal) :=
  [("page", JSVal.num (o.page.getD 1)), ("limit", JSVal.num (o.limit.getD 20))]
  ++ (match o.status with
      | some s => if s = "" then [] else [("status", JSVal.str s)]
      | none => [])
  ++ (match o.priority with
      | some p => if p = "" then [] else [("priority", JSVal.str p)]
      | none => [])

/-- From Sidebar.jsx: the badge count read from the list response, total
with 0 as the nullish fallback. -/
def openCountOf (total : Option Nat) : Nat :=
  total.getD 0

/- ── C8: polling interval configuration of the views ── -/

/-- One useQuery configuration: the leading query key and the configured
refetch interval in milliseconds, when one is set. -/
structure QueryCfg where
  queryKey : String
  refetchIntervalMs : Option Nat
deriving DecidableEq, Repr

/-- Chat.jsx conversations query: key conversations, 5s interval. -/
def chatConversationsQuery : QueryCfg :=
  { queryKey := "conversations", refetchIntervalMs := some 5000 }

/-- Chat.jsx messages query for the active conversation: 5s interval. -/
def chatMessagesQuery : QueryCfg :=
  { queryKey := "messages", refetchIntervalMs := some 5000 }

/-- Agent ticket detail (src/unnamed/part_009) ticket query: 5s interval. -/
def ticketViewTicketQuery : QueryCfg :=
  { queryKey := "ticket", refetchIntervalMs := some 5000 }

/-- Agent ticket detail conversation messages query: 5s interval. -/
def ticketViewMessagesQuery : QueryCfg :=
  { queryKey := "ticketMessages", refetchIntervalMs := some 5000 }

/-- Sidebar.jsx open-ticket badge query: 10s interval. -/
def sidebarBadgeQuery : QueryCfg :=
  { queryKey := "ticketsBadge", refetchIntervalMs := some 10000 }

/-- AgentLayout (src/unnamed/part_005) badge query: 10s interval. -/
def agentLayoutBadgeQuery : QueryCfg :=
  { queryKey := "ticketsBadge", refetchIntervalMs := some 10000 }

/-- Agent dashboard ticket overview (src/unnamed/part_008): 10s interval. -/
def agentDashboardTicketsQuery : QueryCfg :=
  { queryKey := "tickets", refetchIntervalMs := some 10000 }

/-- The active interactive views of the claim. -/
def activeViewQueries : List QueryCfg :=
  [chatConversationsQuery, chatMessagesQuery, ticketViewTicketQuery,
   ticketViewMessagesQuery]

/-- The passive counter views of the claim. -/
def passiveViewQueries : List QueryCfg :=
  [sidebarBadgeQuery, agentLayoutBadgeQuery, agentDashboardTicketsQuery]

/- ── C9: ProtectedRoute and the route table ── -/

/-- User roles the auth context supplies. -/
inductive Role where
  | customer
  | agent
  | admin
deriving DecidableEq, Repr

/-- The auth context fields ProtectedRoute reads. -/
structure AuthState where
  loading : Bool
  isAuthenticated : Bool
  userRole : Role
deriving DecidableEq, Repr

/-- What ProtectedRoute returns: the protected children, the loading screen,
or one of the two redirects. -/
inductive RouteRender where
  | children
  | loadingScreen
  | redirectLogin
  | redirectHome
deriving DecidableEq, Repr

/-- From ProtectedRoute.jsx: the development bypass flag, set to true with a
TODO to remove it when auth is implemented. -/
def DEV_MODE : Bool := true

/-- From ProtectedRoute.jsx, line for line: with DEV_MODE the children are
returned unconditionally; otherwise loading shows the loading screen,
unauthenticated users are redirected to login, and a user whose role is not
in a declared allowedRoles list is redirected to the root. -/
def protectedRoute (allowedRoles : Option (List Role)) (a : AuthState) :
    RouteRender :=
  if DEV_MODE then RouteRender.children
  else if a.loading then RouteRender.loadingScreen
  else if !a.isAuthenticated then RouteRender.redirectLogin
  else
    match allowedRoles with
    | some roles =>
        if a.userRole ∈ roles then RouteRender.children
        else RouteRender.redirectHome
    | none => RouteRender.children

/-- From App.jsx: the protected routes and their declared allowedRoles. -/
def appRoutes : List (String × Option (List Role)) :=
  [("/chat", some [Role.customer]),
   ("/agent", some [Role.agent]),
   ("/agent/tickets", some [Role.agent]),
   ("/agent/tickets/:ticketId", some [Role.agent]),
   ("/admin", some [Role.admin]),
   ("/admin/documents", some [Role.admin]),
   ("/admin/analytics", some [Role.admin]),
   ("/admin/reports", some [Role.admin])]

/- ── C10: the New Conversation action of Chat.jsx ── -/

/-- A conversation list entry as the sidebar reads it: id and optional last
message preview. -/
structure ConvSummary where
  id : Nat
  lastMessage : Option String
deriving DecidableEq, Repr

/-- The outcome of clicking New Conversation. -/
inductive NewConvAction where
  | stay
  | switchTo (id : Nat)
  | create
deriving DecidableEq, Repr

/-- JavaScript truthiness of the last_message field: absent and the empty
string are both falsy. -/
def isEmptyLastMessage : Option String → Bool
  | none => true
  | some s => s == ""

/-- From handleNewConversation in Chat.jsx: stay when the active conversation
has no messages; otherwise switch to the first other conversation with no
last message; otherwise issue the create mutation. -/
def handleNewConversation (activeConvId : Option Nat)
    (messages : List CMessage) (conversations : List ConvSummary) :
    NewConvAction :=
  if activeConvId.isSome && messages.length == 0 then NewConvAction.stay
  else
    match conversations.find?
        (fun c => isEmptyLastMessage c.lastMessage && !(some c.id == activeConvId)) with
    | some c => NewConvAction.switchTo c.id
    | none => NewConvAction.create

/- ────────────────────────── Theorems ────────────────────────── -/

/-- C1: the claim fails on the code. The ticket detail status selector
offers all four statuses for every current status, so for a closed ticket
the set of requestable statuses is not the (empty) set of legal successors;
an edge out of closed is requestable even though the transition graph has
none, and the status mutation will send it. -/
theorem C1_selector_ignores_transition_graph :
    selectableStatuses TicketStatus.closed =
      [TicketStatus.open_, TicketStatus.in_progress, TicketStatus.resolved,
       TicketStatus.closed] ∧
    legalSuccessors TicketStatus.closed = [] ∧
    TicketStatus.in_progress ∈ selectableStatuses TicketStatus.closed ∧
    allowedEdge TicketStatus.closed TicketStatus.in_progress = false ∧
    statusMutationBody TicketStatus.in_progress = [("status", "in_progress")] ∧
    selectableStatuses TicketStatus.closed ≠ legalSuccessors TicketStatus.closed := by
  refine ⟨rfl, rfl, by decide, rfl, rfl, by decide⟩

/-- C5: the claim fails on the code. The provisional entry handleSend stores
carries only a placeholder id, the customer role, the content and a
timestamp — no idempotency key — and the send request body carries only the
content field, so no idempotency key reaches the server. -/
theorem C5_no_idempotency_key :
    mkOptimisticMsg "hello" "2026-01-01T00:00:00Z" =
      { id := "optimistic", senderRole := "customer", content := "hello",
        createdAt := "2026-01-01T00:00:00Z" } ∧
    sendMessageBody "hello" = [("content", "hello")] ∧
    (sendMessageBody "hello").lookup "idempotency_key" = none := by
  refine ⟨rfl, rfl, rfl⟩

/-- C8: every active interactive view (chat conversations, chat messages,
ticket detail ticket, ticket detail messages) is configured with a 5000 ms
refetch interval, and every passive counter view (both sidebar badges and
the dashboard ticket overview) with a 10000 ms refetch interval. -/
theorem C8_poll_intervals :
    (activeViewQueries.all fun q => q.refetchIntervalMs == some 5000) = true ∧
    (passiveViewQueries.all fun q => q.refetchIntervalMs == some 10000) = true := by
  refine ⟨rfl, rfl⟩

/-- C9: the claim fails on the code. Because the DEV_MODE bypass in
ProtectedRoute is enabled, an authenticated customer reaches the
agent-only page, and an unauthenticated visitor is not redirected to
login either — the protected children render unconditionally. -/
theorem C9_dev_mode_bypasses_role_gate :
    DEV_MODE = true ∧
    ("/agent", some [Role.agent]) ∈ appRoutes ∧
    protectedRoute (some [Role.agent])
      { loading := false, isAuthenticated := true, userRole := Role.customer } =
      RouteRender.children ∧
    protectedRoute (some [Role.agent])
      { loading := false, isAuthenticated := false, userRole := Role.customer } =
      RouteRender.children ∧
    RouteRender.children ≠ RouteRender.redirectLogin := by
  refine ⟨rfl, by decide, rfl, rfl, by decide⟩

/-- C6: on send failure the client discards the provisional entry and
appends an error toast, and neither the send mutation options nor the query
client defaults configure any automatic mutation retry. -/
theorem C6_send_failure_handling (st : ChatSendState) :
    (onSendError st).optimisticMsg = none ∧
    (onSendError st).toasts =
      st.toasts ++ [{ kind := "error", text := "Failed to send message" }] ∧
    sendMutationCfg.hasOnErrorHandler = true ∧
    sendMutationCfg.retryConfigured = none ∧
    queryClientDefaults.mutationsRetry = none := by
  refine ⟨rfl, rfl, rfl, rfl, rfl⟩

/-- C7 counterexample: the getTickets wrapper in
src/frontend/src/services/ticketApi.js does not include the status filter
when one is supplied. The sidebar badge call passes its filter object as the
positional page argument, limit falls back to 20, and the resulting request
parameters carry no status key at all. -/
theorem C7_services_wrapper_drops_status :
    sidebarBadgeRequestParams =
      [("page", JSVal.obj [("status", JSVal.str "open"), ("limit", JSVal.num 1)]),
       ("limit", JSVal.num 20)] ∧
    sidebarBadgeRequestParams.lookup "status" = none := by
  refine ⟨rfl, rfl⟩

/-- C7 amended: the sidebar badge call supplies status open and limit 1 and
reads the total field with 0 as fallback; the object-destructuring
getTickets variant (src/unnamed/part_000) includes the status key exactly
when a non-empty status is supplied; the wrapper in
src/frontend/src/services/ticketApi.js takes positional page and limit
arguments and never produces a status key. -/
theorem C7_status_filter_wrappers (s : String) (hs : s ≠ "")
    (page limit : JSVal) (o : GetTicketsOpts) :
    ((getTicketsUnnamedParams
        { page := o.page, limit := o.limit, status := some s,
          priority := o.priority }).lookup "status" = some (JSVal.str s)) ∧
    ((getTicketsUnnamedParams
        { page := o.page, limit := o.limit, status := none,
          priority := o.priority }).lookup "status" = none) ∧
    ((getTicketsServicesParams page limit).lookup "status" = none) ∧
    sidebarBadgeArg =
      JSVal.obj [("status", JSVal.str "open"), ("limit", JSVal.num 1)] ∧
    (∀ n : Nat, openCountOf (some n) = n) ∧
    openCountOf none = 0 := by
  refine ⟨?_, ?_, ?_, rfl, fun n => rfl, rfl⟩
  · simp [getTicketsUnnamedParams, List.lookup, hs]
  · cases hp : o.priority with
    | none => simp [getTicketsUnnamedParams, List.lookup, hp]
    | some p =>
        by_cases hpe : p = "" <;>
          simp [getTicketsUnnamedParams, List.lookup, hp, hpe]
  · simp [getTicketsServicesParams, List.lookup]

/-- C7 witness: instantiating the amended statement at the badge call values. -/
theorem C7_status_filter_wrappers_witness :
    (getTicketsUnnamedParams
        { page := none, limit := none, status := some "open",
          priority := none }).lookup "status" = some (JSVal.str "open") :=
  (C7_status_filter_wrappers "open" (by decide) JSVal.undef JSVal.undef
    { page := none, limit := none, status := none, priority := none }).1

/-- C4: for a ticket whose status is resolved or closed the respond
operation is rejected, and the ticket detail view renders the read-only
banner instead of the response form, so the respond call cannot be invoked. -/
theorem C4_respond_rejected_when_terminal (t : RespTicket) (content : String)
    (agentId : Nat)
    (h : t.status = TicketStatus.resolved ∨ t.status = TicketStatus.closed) :
    respondAccepted t content agentId = false ∧
    respondTicket t content agentId =
      Except.error "ticket is resolved or closed" ∧
    ticketBottomBar t.status = BottomBar.closedBanner t.status ∧
    respondFormRendered t.status = false := by
  have hc : isClosedView t.status = true := by
    rcases h with h | h <;> simp [isClosedView, h]
  refine ⟨?_, ?_, ?_, ?_⟩
  · simp [respondAccepted, respondTicket, h]
  · simp [respondTicket, h]
  · simp [ticketBottomBar, hc]
  · simp [respondFormRendered, ticketBottomBar, hc]

/-- C4 witness: a resolved ticket rejects a response and shows the banner. -/
theorem C4_respond_rejected_witness :
    respondAccepted { status := TicketStatus.resolved, agentId := none }
      "hi" 7 = false :=
  (C4_respond_rejected_when_terminal
    { status := TicketStatus.resolved, agentId := none } "hi" 7 (Or.inl rfl)).1

/-- C3: on the whole score range the spec-modelled escalation decision and
the ConfidenceBadge rendering partition scores into the same three
left-closed bands with boundaries 0.7 and 0.4, and the escalation
affordance of Chat.jsx is shown for a fresh conversation exactly on the
middle band. -/
theorem C3_confidence_bands (s : ℚ) (_h0 : 0 ≤ s) (_h1 : s ≤ 1) :
    (escalationActionOf s = "none" ↔ 7/10 ≤ s) ∧
    (escalationActionOf s = "offer" ↔ 4/10 ≤ s ∧ s < 7/10) ∧
    (escalationActionOf s = "auto" ↔ s < 4/10) ∧
    (confidenceBadgeLevel s = BadgeLevel.high ↔ 7/10 ≤ s) ∧
    (confidenceBadgeLevel s = BadgeLevel.medium ↔ 4/10 ≤ s ∧ s < 7/10) ∧
    (confidenceBadgeLevel s = BadgeLevel.low ↔ s < 4/10) ∧
    (showEscalateButton (some 1) [aiMessageFor s] false = true ↔
      4/10 ≤ s ∧ s < 7/10) := by
  have hbtn : showEscalateButton (some 1) [aiMessageFor s] false =
      (escalationActionOf s == "offer") := by
    simp [showEscalateButton, lastAiMessage, aiMessageFor, List.find?]
  rw [hbtn]
  unfold escalationActionOf confidenceBadgeLevel
  split_ifs with h7 h4
  · exact ⟨iff_of_true (by decide) h7,
      iff_of_false (by decide) (fun hl => absurd h7 (not_le.mpr hl.2)),
      iff_of_false (by decide) (fun hl => absurd h7 (not_le.mpr (by linarith))),
      iff_of_true (by decide) h7,
      iff_of_false (by decide) (fun hl => absurd h7 (not_le.mpr hl.2)),
      iff_of_false (by decide) (fun hl => absurd h7 (not_le.mpr (by linarith))),
      iff_of_false (by decide) (fun hl => absurd h7 (not_le.mpr hl.2))⟩
  · exact ⟨iff_of_false (by decide) h7,
      iff_of_true (by decide) ⟨h4, not_le.mp h7⟩,
      iff_of_false (by decide) (fun hl => absurd h4 (not_le.mpr hl)),
      iff_of_false (by decide) h7,
      iff_of_true (by decide) ⟨h4, not_le.mp h7⟩,
      iff_of_false (by decide) (fun hl => absurd h4 (not_le.mpr hl)),
      iff_of_true (by decide) ⟨h4, not_le.mp h7⟩⟩
  · exact ⟨iff_of_false (by decide) h7,
      iff_of_false (by decide) (fun hl => absurd hl.1 h4),
      iff_of_true (by decide) (not_le.mp h4),
      iff_of_false (by decide) h7,
      iff_of_false (by decide) (fun hl => absurd hl.1 h4),
      iff_of_true (by decide) (not_le.mp h4),
      iff_of_false (by decide) (fun hl => absurd hl.1 h4)⟩

/-- C3 witness: the score one half lies in the offer band and renders the
medium badge. -/
theorem C3_confidence_bands_witness :
    escalationActionOf (1/2) = "offer" ∧
    confidenceBadgeLevel (1/2) = BadgeLevel.medium := by
  refine ⟨?_, ?_⟩
  · exact ((C3_confidence_bands (1/2) (by norm_num) (by norm_num)).2.1).mpr
      (by norm_num)
  · exact ((C3_confidence_bands (1/2) (by norm_num)
      (by norm_num)).2.2.2.2.1).mpr (by norm_num)

/-- C10: the New Conversation handler stays put exactly when a conversation
is active and has no messages; it issues the create mutation exactly when
that is not the case and no other conversation with a falsy last message
exists; and whenever it switches, the target is such an empty other
conversation from the list. -/
theorem C10_new_conversation (activeConvId : Option Nat)
    (messages : List CMessage) (convs : List ConvSummary) :
    (handleNewConversation activeConvId messages convs = NewConvAction.stay ↔
      activeConvId.isSome = true ∧ messages = []) ∧
    (handleNewConversation activeConvId messages convs = NewConvAction.create ↔
      ¬(activeConvId.isSome = true ∧ messages = []) ∧
      ∀ c ∈ convs,
        ¬(isEmptyLastMessage c.lastMessage = true ∧ some c.id ≠ activeConvId)) ∧
    (∀ i,
      handleNewConversation activeConvId messages convs =
        NewConvAction.switchTo i →
      ¬(activeConvId.isSome = true ∧ messages = []) ∧
      ∃ c ∈ convs, c.id = i ∧ isEmptyLastMessage c.lastMessage = true ∧
        some c.id ≠ activeConvId) := by
  have hiff : (activeConvId.isSome && messages.length == 0) = true ↔
      (activeConvId.isSome = true ∧ messages = []) := by
    simp [List.length_eq_zero]
  by_cases hb : (activeConvId.isSome && messages.length == 0) = true
  · have hres : handleNewConversation activeConvId messages convs =
        NewConvAction.stay := by
      unfold handleNewConversation
      rw [if_pos hb]
    refine ⟨iff_of_true hres (hiff.mp hb), ?_, ?_⟩
    · rw [hres]
      exact iff_of_false (by simp) (fun hr => hr.1 (hiff.mp hb))
    · intro i hsw
      rw [hres] at hsw
      exact absurd hsw (by simp)
  · have hnc : ¬(activeConvId.isSome = true ∧ messages = []) :=
      fun h => hb (hiff.mpr h)
    cases hf : convs.find?
        (fun c => isEmptyLastMessage c.lastMessage &&
          !(some c.id == activeConvId)) with
    | some c =>
        have hres : handleNewConversation activeConvId messages convs =
            NewConvAction.switchTo c.id := by
          unfold handleNewConversation
          rw [if_neg hb, hf]
        have hpred := List.find?_some hf
        have hmem := List.mem_of_find?_eq_some hf
        rw [Bool.and_eq_true] at hpred
        have h1 : isEmptyLastMessage c.lastMessage = true := hpred.1
        have h2 : some c.id ≠ activeConvId := by
          have := hpred.2
          simpa using this
        refine ⟨?_, ?_, ?_⟩
        · rw [hres]
          exact iff_of_false (by simp) hnc
        · rw [hres]
          exact iff_of_false (by simp)
            (fun hr => (hr.2 c hmem) ⟨h1, h2⟩)
        · intro i hsw
          rw [hres] at hsw
          have hci : c.id = i := by
            injection hsw
          exact ⟨hnc, c, hmem, hci, h1, h2⟩
    | none =>
        have hres : handleNewConversation activeConvId messages convs =
            NewConvAction.create := by
          unfold handleNewConversation
          rw [if_neg hb, hf]
        have hall := List.find?_eq_none.mp hf
        refine ⟨?_, ?_, ?_⟩
        · rw [hres]
          exact iff_of_false (by simp) hnc
        · rw [hres]
          refine iff_of_true rfl ⟨hnc, fun c hcmem => ?_⟩
          have := hall c hcmem
          simpa using this
        · intro i hsw
          rw [hres] at hsw
          exact absurd hsw (by simp)

/-- C10 witness: with no active conversation and an empty conversation
list, clicking New Conversation issues the create mutation. -/
theorem C10_new_conversation_witness :
    handleNewConversation none [] [] = NewConvAction.create :=
  ((C10_new_conversation none [] []).2.1).mpr
    ⟨by simp, fun c hc => absurd hc (List.not_mem_nil c)⟩

/-- No edge of the transition graph leaves the closed status. -/
theorem allowedEdge_closed (ns : TicketStatus) :
    allowedEdge TicketStatus.closed ns = false := by
  cases ns <;> rfl

/-- A legal status transition never turns an inactive ticket into an active
one, so the per-conversation active count never grows under transitions. -/
theorem countP_setTicketStatus_le (conv : Nat) :
    ∀ (l : List EscTicket) (i : Nat) (ns : TicketStatus),
      (setTicketStatus l i ns).countP (isActiveFor conv) ≤
        l.countP (isActiveFor conv) := by
  intro l
  induction l with
  | nil => intro i ns; simp [setTicketStatus]
  | cons t ts ih =>
    intro i ns
    cases i with
    | zero =>
        show (setTicketStatus (t :: ts) 0 ns).countP (isActiveFor conv) ≤ _
        rw [setTicketStatus]
        split_ifs with he
        · rw [List.countP_cons, List.countP_cons]
          have hmono :
              (if isActiveFor conv
                  { conversationId := t.conversationId, status := ns } = true
               then 1 else 0) ≤
              (if isActiveFor conv t = true then 1 else 0) := by
            by_cases hnew : isActiveFor conv
                { conversationId := t.conversationId, status := ns } = true
            · have hcid : (t.conversationId == conv) = true := by
                have := hnew
                unfold isActiveFor at this
                rw [Bool.and_eq_true] at this
                exact this.1
              have hts : (t.status == TicketStatus.closed) = false := by
                rcases hst : t.status with _ | _ | _ | _ <;> try rfl
                rw [hst, allowedEdge_closed] at he
                exact absurd he (by simp)
              have hold : isActiveFor conv t = true := by
                unfold isActiveFor
                rw [hcid, hts]
                rfl
              rw [if_pos hnew, if_pos hold]
            · rw [if_neg hnew]
              split_ifs <;> omega
          omega
        · exact le_refl _
    | succ i =>
        show (setTicketStatus (t :: ts) (Nat.succ i) ns).countP
            (isActiveFor conv) ≤ _
        rw [setTicketStatus, List.countP_cons, List.countP_cons]
        have := ih i ns
        omega

/-- The conditional insert of escalation preserves the at-most-one-active
bound for every conversation. -/
theorem escalateNow_activeCount (st : EscState) (c conv : Nat)
    (h : activeTicketCount st conv ≤ 1) :
    activeTicketCount (escalateNow st c) conv ≤ 1 := by
  unfold escalateNow
  split_ifs with ha
  · exact h
  · unfold activeTicketCount at *
    show (({ conversationId := c, status := TicketStatus.open_ } :
        EscTicket) :: st.tickets).countP (isActiveFor conv) ≤ 1
    rw [List.countP_cons]
    by_cases hc : c = conv
    · subst hc
      have h0 : st.tickets.countP (isActiveFor c) = 0 := by
        rw [List.countP_eq_zero]
        intro t ht hpt
        exact ha (List.any_eq_true.mpr ⟨t, ht, hpt⟩)
      rw [h0]
      split_ifs <;> omega
    · have hnew : isActiveFor conv
          { conversationId := c, status := TicketStatus.open_ } = false := by
        unfold isActiveFor
        have : (c == conv) = false := by
          simpa using hc
        rw [this]
        rfl
      rw [hnew]
      simpa using h

/-- Every atomic escalation or transition step preserves the
at-most-one-active bound for every conversation. -/
theorem escStep_preserves (st st2 : EscState) (h : EscStep st st2)
    (conv : Nat) (hle : activeTicketCount st conv ≤ 1) :
    activeTicketCount st2 conv ≤ 1 := by
  cases h with
  | escalate c => exact escalateNow_activeCount st c conv hle
  | transit i ns =>
      unfold activeTicketCount transitionTicket
      exact le_trans (countP_setTicketStatus_le conv st.tickets i ns) hle

/-- C2: in every state reachable by any finite interleaving of escalateNow,
auto-escalation and status-transition calls, each conversation has at most
one ticket whose status is not closed. -/
theorem C2_at_most_one_active_ticket (st : EscState) (h : EscReachable st)
    (conv : Nat) : activeTicketCount st conv ≤ 1 := by
  unfold EscReachable at h
  induction h with
  | refl => simp [activeTicketCount, escInit]
  | tail hsteps hstep ih => exact escStep_preserves _ _ hstep conv ih

/-- C2 witness: the state after one escalateNow call on conversation 0 is
reachable and satisfies the bound. -/
theorem C2_at_most_one_active_ticket_witness :
    activeTicketCount (escalateNow escInit 0) 0 ≤ 1 :=
  C2_at_most_one_active_ticket (escalateNow escInit 0)
    (Relation.ReflTransGen.single (EscStep.escalate escInit 0)) 0
